import Mathlib

set_option maxRecDepth 10000

/-!
Verification development for the BOTX trend pipeline
(src/app/trends_filter.py, src/app/trends.py, src/app/trends_enhanced.py,
src/app/trends_realtime.py, src/app/domain_hashtags.py).

Python strings are modelled as Lean `String` (all data here is ASCII), Python
floats as `ℚ` (every float literal and arithmetic step appearing in the claims
is exact in binary floating point at the concrete inputs used, so rational
arithmetic agrees), and `datetime` values as rational timestamps.  The sklearn
TF-IDF cosine similarity is an external library call; it is modelled as an
oracle `sim : String → ℚ` constrained by `simOk` below, which records the two
facts the code relies on: the cosine of nonnegative vectors lies in `[0, 1]`,
and a tag sharing no vocabulary token with the fitted corpus has a zero vector,
for which sklearn returns similarity `0`.  Python string primitives
(`str.lower`, `" ".join`, slicing) are modelled by list-level functions with
identical behaviour on ASCII data.
-/

/-! ### Generic string machinery (Python `in`, `re.search`) -/

/-- Python `\w` on ASCII text: letters, digits and underscore. -/
def wordChar (c : Char) : Bool := c.isAlphanum || c = '_'

/-- Word-ness of the character adjacent to a regex position; the virtual
characters before the start and after the end of the string are non-word. -/
def isWordOpt : Option Char → Bool
  | none => false
  | some c => wordChar c

/-- Python `needle in hay` (plain substring test). -/
def isSub (needle : List Char) : List Char → Bool
  | [] => needle.isPrefixOf []
  | c :: t => needle.isPrefixOf (c :: t) || isSub needle t

/-- One position of a `re.search` for a single alternative wrapped in word
boundaries: the alternative must occur here, with a boundary (exactly one
word character among the two neighbours) on each side.  `prev` is the
character just before the current position. -/
def bAux (needle : List Char) (prev : Option Char) (hay : List Char) : Bool :=
  (needle.isPrefixOf hay
      && (isWordOpt prev != isWordOpt needle.head?)
      && (isWordOpt needle.getLast? != isWordOpt (hay.drop needle.length).head?))
  || (match hay with
      | [] => false
      | c :: t => bAux needle (some c) t)

/-- Python `re.search` of a word-boundary-delimited alternative. -/
def bSearch (needle hay : List Char) : Bool := bAux needle none hay

/-- Python `str.lower()` on ASCII text: lowercase each character. -/
def lowerStr (s : String) : String := String.mk (s.toList.map Char.toLower)

/-- Python `" ".join(parts)`. -/
def joinSpace : List String → String
  | [] => ""
  | [x] => x
  | x :: y :: rest => x ++ " " ++ joinSpace (y :: rest)

/-! ### `TrendFilter` (src/app/trends_filter.py) -/

/-- `TrendFilter.DOMAIN_KEYWORDS` (trends_filter.py lines 20-26). -/
def DOMAIN_KEYWORDS : List String :=
  ["AI", "GPU", "LLM", "cloud", "inference", "training", "rendering",
   "compute", "latency", "autoscale", "ML", "deep learning", "neural",
   "model", "deployment", "serverless", "kubernetes", "docker", "API",
   "performance", "optimization", "CUDA", "tensor", "pytorch", "tensorflow",
   "huggingface", "openai", "anthropic", "gemini", "llama", "mistral"]

/-- The alternatives of `TrendFilter.BLACKLIST_PATTERNS` (lines 29-34);
each inner list is one pattern of the form `\b(a|b|...)\b`. -/
def BLACKLIST_ALTS : List (List String) :=
  [["nsfw", "porn", "xxx", "adult", "18+"],
   ["trump", "biden", "election", "vote", "democrat", "republican", "politics"],
   ["war", "conflict", "attack", "bomb", "terror"],
   ["death", "died", "killed", "murder"]]

/-- Search the lowered trend for one blacklist pattern. -/
def reWordAlts (alts : List String) (s : String) : Bool :=
  alts.any fun a => bSearch a.toList s.toList

/-- `TrendFilter.is_blacklisted` (lines 72-78): lowercase the trend and
test every blacklist pattern. -/
def is_blacklisted (trend : String) : Bool :=
  BLACKLIST_ALTS.any fun p => reWordAlts p (lowerStr trend)

/-- `re.sub(r'[#@]', '', trend).lower()` from `calculate_relevance` (line 52). -/
def cleanTrend (t : String) : String :=
  lowerStr (String.mk (t.toList.filter (fun c => c != '#' && c != '@')))

/-- The tech-boost regex `\b(tech|code|dev|data|api|cloud)\b` (line 64). -/
def techSearch (s : String) : Bool :=
  (["tech", "code", "dev", "data", "api", "cloud"] : List String).any
    fun a => bSearch a.toList s.toList

/-! TF-IDF vocabulary of the fitted vectorizer.  `_init_domain_vector`
(lines 43-46) fits `TfidfVectorizer(max_features=100)` on the single document
`" ".join(DOMAIN_KEYWORDS * 3)`.  sklearn tokenizes into maximal runs of word
characters of length at least 2 (lowercased); 32 distinct tokens result, below
the 100-feature cap, so the vocabulary is exactly the token set. -/

/-- Maximal runs of word characters of a character list. -/
def splitRuns : List Char → List Char → List (List Char)
  | [], acc => if acc.isEmpty then [] else [acc.reverse]
  | c :: t, acc =>
    if wordChar c then splitRuns t (c :: acc)
    else if acc.isEmpty then splitRuns t [] else acc.reverse :: splitRuns t []

/-- sklearn default tokenization: lowercase, keep word-character runs of
length at least 2. -/
def tokenize (s : String) : List String :=
  ((splitRuns (lowerStr s).toList []).filter (fun r => 2 ≤ r.length)).map String.mk

/-- The single fitted document `" ".join(DOMAIN_KEYWORDS * 3)` (line 45). -/
def domainText : String :=
  joinSpace (DOMAIN_KEYWORDS ++ DOMAIN_KEYWORDS ++ DOMAIN_KEYWORDS)

/-- The fitted vocabulary (as a token list; only membership matters). -/
def vocab : List String := (tokenize domainText).eraseDups

/-- The transformed TF-IDF vector of a tag is the zero vector exactly when no
token of the tag occurs in the vocabulary. -/
def cosineZero (t : String) : Bool := (tokenize t).all fun w => !(vocab.contains w)

/-- Constraints on the cosine-similarity oracle that hold of sklearn
`cosine_similarity(vectorizer.transform([t]), domain_vector)[0][0]`:
the value lies in `[0, 1]` (both vectors are entrywise nonnegative), and
a tag with a zero transformed vector gets similarity `0`. -/
def simOk (sim : String → ℚ) : Prop :=
  (∀ t, 0 ≤ sim t ∧ sim t ≤ 1) ∧ (∀ t, cosineZero t = true → sim t = 0)

/-- A concrete oracle satisfying `simOk`, used to instantiate witnesses. -/
def simZero : String → ℚ := fun _ => 0

/-- `TrendFilter.calculate_relevance` (lines 48-70), parametric in the cosine
oracle `sim`.  Stage (a): any lowered domain keyword occurring as a substring
of the cleaned tag returns `0.85` immediately.  Stage (b): cosine similarity,
boosted by `+0.2` (capped at `1`) when the tech regex matches.  The
`except: return 0.0` branch is unreachable for a fitted vectorizer. -/
def calculate_relevance (sim : String → ℚ) (trend : String) : ℚ :=
  let clean := cleanTrend trend
  if DOMAIN_KEYWORDS.any (fun k => isSub (lowerStr k).toList (lowerStr clean).toList) then
    85/100
  else
    let s := sim clean
    if techSearch clean then min 1 (s + 2/10) else s

/-- The bridge dictionary of `TrendFilter.bridge_to_gpu_context`
(lines 105-122), in insertion order; each pattern is a plain alternative
list (no word boundaries in these regexes). -/
def BRIDGES : List (List String × String) :=
  [(["ufc", "mma", "boxing", "fight"],
    "Fight night traffic spikes? Handle the load with instant GPU scaling"),
   (["nfl", "nba", "soccer", "football", "baseball"],
    "Game day traffic surge? Autoscale your AI with on-demand GPUs"),
   (["olympics", "worldcup", "championship"],
    "Global event streaming? Deploy GPUs worldwide in minutes"),
   (["music", "concert", "festival"],
    "Streaming to millions? GPU-powered transcoding at any scale"),
   (["movie", "film", "netflix", "disney"],
    "Content delivery at scale needs serious GPU compute"),
   (["gaming", "xbox", "playstation", "nintendo"],
    "Gaming + AI = next-gen experiences. Start with instant GPUs"),
   (["breaking", "news", "alert"],
    "Breaking news analysis? Process data faster with GPU acceleration"),
   (["launch", "release", "announcement"],
    "Product launch traffic? Scale compute instantly, pay per use"),
   (["trend", "viral", "hot"],
    "Going viral? Don\x27t let your servers crash. Scale GPUs on-demand")]

/-- `TrendFilter.bridge_to_gpu_context` (lines 101-129): first matching
category sentence, else the generic template parameterized by the tag. -/
def bridge_to_gpu_context (trend : String) : String :=
  let tl := (lowerStr trend).toList.filter (fun c => c != '#')
  match BRIDGES.find? (fun p => p.1.any fun a => isSub a.toList tl) with
  | some p => p.2
  | none =>
    "While #" ++ String.mk (trend.toList.filter (fun c => c != '#'))
      ++ " trends, smart teams choose scalable GPU compute"

/-! ### Levenshtein distance (the `Levenshtein.distance` library call).

Defined with a structural fuel argument so the kernel can evaluate it;
`lev` always supplies sufficient fuel (every recursive call drops the summed
length by at least one), and the lemmas `lev_nil_left`, `lev_nil_right` and
`lev_cons` below certify that `lev` satisfies exactly the textbook
unit-cost edit-distance recurrence. -/

def levF : ℕ → List Char → List Char → ℕ
  | _, [], ys => ys.length
  | _, x :: xs, [] => (x :: xs).length
  | 0, _ :: _, _ :: _ => 0
  | f + 1, x :: xs, y :: ys =>
    if x = y then levF f xs ys
    else 1 + min (levF f xs ys) (min (levF f (x :: xs) ys) (levF f xs (y :: ys)))

/-- Unit-cost Levenshtein edit distance. -/
def lev (xs ys : List Char) : ℕ := levF (xs.length + ys.length) xs ys

/-- The similarity of line 90:
`1 - Levenshtein.distance(t.lower(), u.lower()) / max(len(t), len(u))`. -/
def similarity (t u : String) : ℚ :=
  1 - (lev (lowerStr t).toList (lowerStr u).toList : ℚ) / (max t.length u.length : ℚ)


/-! ### `TrendFilter.remove_duplicates` and `filter_and_score` -/

/-- The greedy pass of `TrendFilter.remove_duplicates` (lines 80-99):
a candidate is appended unless its similarity to some already-admitted
candidate exceeds `max_similarity`. -/
def removeDupGo (ms : ℚ) : List String → List String → List String
  | [], acc => acc
  | t :: rest, acc =>
    if acc.any (fun u => decide (ms < similarity t u)) then removeDupGo ms rest acc
    else removeDupGo ms rest (acc ++ [t])

/-- `TrendFilter.remove_duplicates`. -/
def remove_duplicates (ms : ℚ) (trends : List String) : List String :=
  removeDupGo ms trends []

/-- One record of the `filter_and_score` output (the dict of lines 158-164). -/
structure ScoredTrend where
  hashtag : String
  relevance : ℚ
  needs_bridge : Bool
  bridge_text : Option String
  source : String
deriving DecidableEq, Repr

/-- Python truthiness of the `bridge_text` optional string (line 153/157). -/
def truthyOpt : Option String → Bool
  | none => false
  | some s => !(s == "")

/-- The per-trend body of the `filter_and_score` loop (lines 138-164). -/
def scoreOne (sim : String → ℚ) (m : ℚ) (trend : String) : Option ScoredTrend :=
  if is_blacklisted trend then none
  else
    let r := calculate_relevance sim trend
    let nb : Bool := decide (r < m)
    let bt : Option String := if nb then some (bridge_to_gpu_context trend) else none
    let r2 : ℚ :=
      match bt with
      | some b => if b == "" then r else min m (r + 15/100)
      | none => r
    if m ≤ r2 ∨ truthyOpt bt = true then
      some ⟨trend, r2, nb, bt, "filtered"⟩
    else none

/-- `TrendFilter.filter_and_score` (lines 131-169): dedupe, drop blacklisted
trends, score, bridge low-relevance trends, then stable-sort by relevance
descending (Python `list.sort(key=..., reverse=True)` is a stable descending
sort, which `List.insertionSort` with this relation implements). -/
def filter_and_score (sim : String → ℚ) (m ms : ℚ) (trends : List String) :
    List ScoredTrend :=
  List.insertionSort (fun a b => b.relevance ≤ a.relevance)
    ((remove_duplicates ms trends).filterMap (scoreOne sim m))

/-- Two sequential calls of `calculate_relevance` in one process lifetime:
the object state read by the method (keyword list, fitted vectorizer) is
not mutated by it, so both calls see the same state. -/
def scoreTwice (sim : String → ℚ) (tag : String) : ℚ × ℚ :=
  (calculate_relevance sim tag, calculate_relevance sim tag)

/-! ### `EnhancedTrendsManager._score_trends_with_relevance`
(src/app/trends_enhanced.py lines 336-372) -/

/-- An input trend dict (`hashtag`, `source`, `score`, `timestamp`);
timestamps are rational hours. -/
structure TrendRec where
  hashtag : String
  source : String
  score : ℚ
  timestamp : ℚ
deriving DecidableEq, Repr

/-- An output dict, extended with `relevance_score` and `final_score`. -/
structure ScoredRec where
  hashtag : String
  source : String
  score : ℚ
  timestamp : ℚ
  relevance_score : ℚ
  final_score : ℚ
deriving DecidableEq, Repr

/-- The `source_boost` dict lookup with default `1.0` (lines 347-353). -/
def sourceBoost (s : String) : ℚ :=
  if s = "twitter" then 6/5
  else if s = "github" then 11/10
  else if s = "reddit" then 1
  else if s = "news" then 23/20
  else if s = "semantic" then 4/5
  else 1

/-- `_score_trends_with_relevance`, parametric in the relevance oracle `rel`
(the `_calculate_relevance_score` method) and the current time `now` in hours:
`final_score = score * source_boost * max(0.5, 1 - age_hours/24) * (1 + rel)`,
then a stable descending sort by `final_score`. -/
def score_trends_with_relevance (rel : String → ℚ) (now : ℚ)
    (trends : List TrendRec) : List ScoredRec :=
  let scored := trends.map fun t =>
    let r := rel t.hashtag
    let tf := max (1/2) (1 - (now - t.timestamp)/24)
    ({ hashtag := t.hashtag, source := t.source, score := t.score,
       timestamp := t.timestamp, relevance_score := r,
       final_score := t.score * sourceBoost t.source * tf * (1 + r) } : ScoredRec)
  List.insertionSort (fun a b => b.final_score ≤ a.final_score) scored

/-- A concrete relevance oracle for closed instances. -/
def relZero : String → ℚ := fun _ => 0

/-! ### The PyTrends circuit breaker of `TrendsManager._extract_google_trends`
(src/app/trends.py lines 52-54 and 184-243).

State: `pytrends_fail_count` and `pytrends_degraded_until` (line 52-54).
Per call: if degraded and `now < degraded_until`, return without touching the
adapter; if degraded and the cooldown elapsed, clear both fields and proceed;
a proceeding call invokes the adapter, and when every region fails
(`success_count == 0`) increments the counter, arming the 60-minute cooldown
once it reaches 3.  Times are rational minutes. -/

structure PBreaker where
  failCount : ℕ
  degradedUntil : Option ℚ
deriving DecidableEq, Repr

/-- The body after the breaker gate: `ok` is `success_count > 0` for this
call (at least one region succeeded). -/
def pytrendsAttempt (s : PBreaker) (now : ℚ) (ok : Bool) : PBreaker × Bool :=
  if ok then (s, true)
  else
    let fc := s.failCount + 1
    (⟨fc, if 3 ≤ fc then some (now + 60) else s.degradedUntil⟩, true)

/-- One call of `_extract_google_trends`; the returned flag is whether the
wrapped adapter (the PyTrends regions loop) was invoked. -/
def googleTrendsStep (s : PBreaker) (now : ℚ) (ok : Bool) : PBreaker × Bool :=
  match s.degradedUntil with
  | some t =>
    if now < t then (s, false)
    else pytrendsAttempt ⟨0, none⟩ now ok
  | none => pytrendsAttempt s now ok

/-- A sequence of calls at given times with given region outcomes; returns the
final state and the list of adapter-invocation flags. -/
def runBreaker (s : PBreaker) : List (ℚ × Bool) → PBreaker × List Bool
  | [] => (s, [])
  | (now, ok) :: rest =>
    let p := googleTrendsStep s now ok
    let q := runBreaker p.1 rest
    (q.1, p.2 :: q.2)

/-! ### `RealtimeTrendsExtractor` (src/app/trends_realtime.py) -/

/-- The calendar context read via `datetime.now()`: `weekday` as in Python
(`0` = Monday), `month` as a `Fin 12` (`0` = January). -/
structure Clock where
  weekday : Fin 7
  month : Fin 12
  year : ℕ
  day : ℕ
  hour : ℕ

def weekdayName (w : Fin 7) : String :=
  (["Monday", "Tuesday", "Wednesday", "Thursday", "Friday", "Saturday",
    "Sunday"] : List String).getD w.val ""

def monthName (m : Fin 12) : String :=
  (["January", "February", "March", "April", "May", "June", "July", "August",
    "September", "October", "November", "December"] : List String).getD m.val ""

/-- The season block of `_generate_temporal_trends` (lines 162-171);
`monthNum` is the 1-based month. -/
def seasonTrends (monthNum : ℕ) (yr : ℕ) : List String :=
  if monthNum = 12 ∨ monthNum = 1 ∨ monthNum = 2 then
    ["#Winter" ++ toString yr, "#WinterVibes"]
  else if monthNum = 3 ∨ monthNum = 4 ∨ monthNum = 5 then
    ["#Spring" ++ toString yr, "#SpringVibes"]
  else if monthNum = 6 ∨ monthNum = 7 ∨ monthNum = 8 then
    ["#Summer" ++ toString yr, "#SummerVibes"]
  else
    ["#Fall" ++ toString yr, "#AutumnVibes"]

/-- The time-of-day block (lines 174-182). -/
def timeOfDayTag (h : ℕ) : String :=
  if 5 ≤ h ∧ h < 12 then "#MorningMotivation"
  else if 12 ≤ h ∧ h < 17 then "#AfternoonGrind"
  else if 17 ≤ h ∧ h < 21 then "#EveningVibes"
  else "#LateNight"

/-- `RealtimeTrendsExtractor._generate_temporal_trends` (lines 146-194). -/
def generate_temporal_trends (c : Clock) : List String :=
  let wd := weekdayName c.weekday
  let mo := monthName c.month
  let yr := toString c.year
  ["#" ++ wd, "#" ++ wd.take 3 ++ "Vibes", "#" ++ mo ++ yr, "#" ++ mo.take 3 ++ yr]
    ++ seasonTrends (c.month.val + 1) c.year
    ++ [timeOfDayTag c.hour]
    ++ (if c.day = 1 then ["#New" ++ mo] else [])
    ++ (if c.weekday.val = 0 then ["#MondayMotivation"]
        else if c.weekday.val = 4 then ["#FridayFeeling"]
        else if c.weekday.val = 6 then ["#SundayFunday"]
        else [])

def PRE_WORDS : List String := ["Trending", "Hot", "Breaking", "Latest", "Today", "Now"]

def SUF_WORDS : List String := ["News", "Update", "Alert", "Story", "Topic", "Buzz"]

/-- `RealtimeTrendsExtractor._generate_contextual_trends` (lines 196-222);
`dh j` is the value of the `j`-th hex byte pair of the MD5 hash of the current
date string (an oracle for the hash, deterministic for a fixed date). -/
def generate_contextual_trends (dh : ℕ → ℕ) (c : Clock) : List String :=
  (((List.range 5).map fun i =>
      "#" ++ PRE_WORDS.getD (dh i % 6) "" ++ SUF_WORDS.getD (dh (i + 5) % 6) "")
    ++ generate_temporal_trends c
    ++ ["#Top1", "#Top2", "#Top3"]).take 10

/-- `RealtimeTrendsExtractor._clean_hashtag` (lines 224-237): prepend `#` when
missing, strip every character that is neither `#` nor a word character, and
reject results shorter than 3 or longer than 30 characters. -/
def clean_hashtag (h : String) : Option String :=
  let h1 := if "#".toList.isPrefixOf h.toList then h else "#" ++ h
  let h2 := String.mk (h1.toList.filter fun c => c == '#' || wordChar c)
  if h2.length < 3 ∨ 30 < h2.length then none else some h2

/-- The dedupe-and-clean loop of `get_worldwide_trends` (lines 45-51):
keep the first cleaned occurrence of each case-insensitive tag. -/
def cleanDedupe : List String → List String → List String
  | [], _ => []
  | t :: rest, seen =>
    match clean_hashtag t with
    | none => cleanDedupe rest seen
    | some cl =>
      if seen.contains (lowerStr cl) then cleanDedupe rest seen
      else cl :: cleanDedupe rest (lowerStr cl :: seen)

/-- `RealtimeTrendsExtractor.get_worldwide_trends` (lines 28-65).  `cache` is
the `_load_cache` result; `tw` and `topics` are the results of the two
networked fetchers (each returns `[]` on any failure, all exceptions being
swallowed); the temporal generator always runs.  A non-empty cache is returned
directly; otherwise the sources are concatenated, cleaned and deduplicated,
the contextual generator fills in when nothing survived, and the top 10 are
returned. -/
def get_worldwide_trends (dh : ℕ → ℕ) (c : Clock) (cache : Option (List String))
    (tw topics : List String) : List String :=
  let core :=
    let trends := tw ++ topics ++ generate_temporal_trends c
    let uniq := cleanDedupe trends []
    let uniq2 := if uniq.isEmpty then generate_contextual_trends dh c else uniq
    uniq2.take 10
  match cache with
  | some cached => if cached.isEmpty then core else cached
  | none => core

/-- `RealtimeTrendsExtractor._load_cache` (lines 239-256, and the identical
logic of `EnhancedTrendsManager._load_cache`, trends_enhanced.py 455-473):
an entry `(written-at, payload)` is returned only while `now - written < ttl`
(`ttl` is the store's `cache_duration`); afterwards the read misses. -/
def load_cache (entry : Option (ℚ × List String)) (now ttl : ℚ) :
    Option (List String) :=
  match entry with
  | none => none
  | some (ts, tr) => if now - ts < ttl then some tr else none

/-! ### Helper lemmas -/

theorem simZero_ok : simOk simZero :=
  ⟨fun _ => ⟨le_refl 0, by norm_num [simZero]⟩, fun _ _ => rfl⟩

theorem levF_fuel : ∀ f g xs ys, xs.length + ys.length ≤ f →
    xs.length + ys.length ≤ g → levF f xs ys = levF g xs ys := by
  intro f
  induction f with
  | zero =>
    intro g xs ys hf _
    match xs, ys with
    | [], ys => cases g <;> rfl
    | x :: xs, [] => cases g <;> rfl
    | x :: xs, y :: ys => simp at hf
  | succ f ih =>
    intro g xs ys hf hg
    match xs, ys with
    | [], ys => cases g <;> rfl
    | x :: xs, [] => cases g <;> rfl
    | x :: xs, y :: ys =>
      match g with
      | 0 => simp at hg
      | g + 1 =>
        simp only [List.length_cons] at hf hg
        simp only [levF]
        rw [ih g xs ys (by omega) (by omega),
            ih g (x :: xs) ys (by simp; omega) (by simp; omega),
            ih g xs (y :: ys) (by simp; omega) (by simp; omega)]

theorem lev_nil_left (ys : List Char) : lev [] ys = ys.length := by
  simp [lev, levF]

theorem lev_nil_right (xs : List Char) : lev xs [] = xs.length := by
  cases xs <;> simp [lev, levF]

theorem lev_cons (x y : Char) (xs ys : List Char) :
    lev (x :: xs) (y :: ys) =
      if x = y then lev xs ys
      else 1 + min (lev xs ys) (min (lev (x :: xs) ys) (lev xs (y :: ys))) := by
  show levF ((x :: xs).length + (y :: ys).length) (x :: xs) (y :: ys) = _
  simp only [List.length_cons]
  have he : (x :: xs).length + (y :: ys).length = xs.length + ys.length + 2 := by
    simp; omega
  rw [show xs.length + 1 + (ys.length + 1) = (xs.length + ys.length + 1) + 1 by omega]
  simp only [levF]
  rw [levF_fuel (xs.length + ys.length + 1) (xs.length + ys.length) xs ys (by omega) (by omega),
      levF_fuel (xs.length + ys.length + 1) ((x :: xs).length + ys.length) (x :: xs) ys
        (by simp; omega) (by simp),
      levF_fuel (xs.length + ys.length + 1) (xs.length + (y :: ys).length) xs (y :: ys)
        (by simp; omega) (by simp)]
  rfl

theorem levF_symm : ∀ f xs ys, levF f xs ys = levF f ys xs := by
  intro f
  induction f with
  | zero =>
    intro xs ys
    match xs, ys with
    | [], [] => rfl
    | [], y :: ys => rfl
    | x :: xs, [] => rfl
    | x :: xs, y :: ys => rfl
  | succ f ih =>
    intro xs ys
    match xs, ys with
    | [], [] => rfl
    | [], y :: ys => rfl
    | x :: xs, [] => rfl
    | x :: xs, y :: ys =>
      simp only [levF]
      by_cases h : x = y
      · rw [if_pos h, if_pos h.symm, ih]
      · rw [if_neg h, if_neg (Ne.symm h), ih xs ys, ih (x :: xs) ys, ih xs (y :: ys)]
        omega

theorem lev_symm (xs ys : List Char) : lev xs ys = lev ys xs := by
  unfold lev
  rw [Nat.add_comm]
  exact levF_symm _ xs ys

theorem similarity_symm (t u : String) : similarity t u = similarity u t := by
  unfold similarity
  rw [lev_symm, max_comm]

theorem bridge_nonempty (t : String) : bridge_to_gpu_context t ≠ "" := by
  simp only [bridge_to_gpu_context]
  split
  · next p hp =>
    have hm := List.mem_of_find?_eq_some hp
    have hall : BRIDGES.all (fun q => !(q.2 == "")) = true := by decide
    have := List.all_eq_true.mp hall p hm
    simpa using this
  · intro h
    have hlen := congrArg String.length h
    rw [String.length_append, String.length_append] at hlen
    have h7 : ("While #" : String).length = 7 := by decide
    rw [h7] at hlen
    simp [String.length] at hlen

theorem mem_fas {sim : String → ℚ} {m ms : ℚ} {trends : List String}
    {rec : ScoredTrend} (h : rec ∈ filter_and_score sim m ms trends) :
    ∃ t, t ∈ remove_duplicates ms trends ∧ scoreOne sim m t = some rec := by
  unfold filter_and_score at h
  have h2 := (List.perm_insertionSort _ _).mem_iff.mp h
  exact List.mem_filterMap.mp h2

theorem scoreOne_low {sim : String → ℚ} {m : ℚ} {t : String}
    (hb : is_blacklisted t = false) (hr : calculate_relevance sim t < m) :
    scoreOne sim m t = some ⟨t, min m (calculate_relevance sim t + 15/100), true,
      some (bridge_to_gpu_context t), "filtered"⟩ := by
  have hbr : (bridge_to_gpu_context t == "") = false := by
    simpa using bridge_nonempty t
  simp [scoreOne, hb, hr, hbr, truthyOpt]

theorem scoreOne_high {sim : String → ℚ} {m : ℚ} {t : String}
    (hb : is_blacklisted t = false) (hr : ¬ calculate_relevance sim t < m) :
    scoreOne sim m t = some ⟨t, calculate_relevance sim t, false, none, "filtered"⟩ := by
  simp [scoreOne, hb, hr, truthyOpt, not_lt.mp hr]

theorem scoreOne_spec {sim : String → ℚ} {m : ℚ} {t : String} {rec : ScoredTrend}
    (h : scoreOne sim m t = some rec) :
    rec.hashtag = t ∧ is_blacklisted t = false ∧
    (m < rec.relevance → rec.needs_bridge = false ∧ rec.bridge_text = none) ∧
    (rec.relevance < m → rec.needs_bridge = true ∧ truthyOpt rec.bridge_text = true) := by
  by_cases hb : is_blacklisted t
  · simp [scoreOne, hb] at h
  · have hb' : is_blacklisted t = false := by simpa using hb
    by_cases hr : calculate_relevance sim t < m
    · rw [scoreOne_low hb' hr] at h
      obtain rfl := (Option.some.injEq _ _).mp h
      refine ⟨rfl, hb', ?_, ?_⟩
      · intro hlt
        exact absurd (lt_of_lt_of_le hlt (min_le_left _ _)) (lt_irrefl m)
      · intro _
        have hbr : (bridge_to_gpu_context t == "") = false := by
          simpa using bridge_nonempty t
        exact ⟨rfl, by simp [truthyOpt, hbr]⟩
    · rw [scoreOne_high hb' hr] at h
      obtain rfl := (Option.some.injEq _ _).mp h
      refine ⟨rfl, hb', fun _ => ⟨rfl, rfl⟩, fun hlt => absurd hlt hr⟩

theorem removeDupGo_pairwise (ms : ℚ) : ∀ (l acc : List String),
    List.Pairwise (fun a b => similarity a b ≤ ms ∧ similarity b a ≤ ms) acc →
    List.Pairwise (fun a b => similarity a b ≤ ms ∧ similarity b a ≤ ms)
      (removeDupGo ms l acc) := by
  intro l
  induction l with
  | nil =>
    intro acc h
    simpa [removeDupGo] using h
  | cons t rest ih =>
    intro acc h
    by_cases hc : acc.any (fun u => decide (ms < similarity t u)) = true
    · rw [removeDupGo, if_pos hc]
      exact ih acc h
    · rw [removeDupGo, if_neg hc]
      apply ih
      rw [List.pairwise_append]
      refine ⟨h, List.pairwise_singleton _ _, ?_⟩
      intro a ha b hbm
      obtain rfl := List.mem_singleton.mp hbm
      rw [List.any_eq_true] at hc
      push_neg at hc
      have h1 : ¬ (ms < similarity b a) := by
        have := hc a ha
        simpa using this
      exact ⟨by rw [similarity_symm]; exact not_lt.mp h1, not_lt.mp h1⟩

theorem cleanDedupe_cons_some {t cl : String} {rest seen : List String}
    (h : clean_hashtag t = some cl) (h2 : seen.contains (lowerStr cl) = false) :
    cleanDedupe (t :: rest) seen = cl :: cleanDedupe rest (lowerStr cl :: seen) := by
  simp only [cleanDedupe, h]
  rw [if_neg (by simp at h2; simp [h2])]


theorem similarity_eval {t u : String} (d M : ℕ)
    (hd : lev (lowerStr t).toList (lowerStr u).toList = d)
    (hM : max t.length u.length = M) :
    similarity t u = 1 - (d : ℚ) / (M : ℚ) := by
  unfold similarity
  rw [hd, ← Nat.cast_max, hM]

theorem calcRel_hit {sim : String → ℚ} {t : String}
    (h : (DOMAIN_KEYWORDS.any fun k =>
        isSub (lowerStr k).toList (lowerStr (cleanTrend t)).toList) = true) :
    calculate_relevance sim t = 85/100 := by
  simp only [calculate_relevance]
  rw [if_pos h]

theorem calcRel_miss {sim : String → ℚ} {t : String}
    (h1 : (DOMAIN_KEYWORDS.any fun k =>
        isSub (lowerStr k).toList (lowerStr (cleanTrend t)).toList) = false)
    (h2 : techSearch (cleanTrend t) = false) :
    calculate_relevance sim t = sim (cleanTrend t) := by
  simp only [calculate_relevance]
  rw [if_neg (by rw [h1]; simp), if_neg (by rw [h2]; simp)]

theorem calcRel_simZero_worldcup : calculate_relevance simZero "worldcup" = 0 :=
  (calcRel_miss (by decide) (by decide)).trans rfl

theorem fas_singleton_low {sim : String → ℚ} {m ms : ℚ} {t : String}
    (hb : is_blacklisted t = false) (hr : calculate_relevance sim t < m) :
    filter_and_score sim m ms [t] =
      [⟨t, min m (calculate_relevance sim t + 15/100), true,
        some (bridge_to_gpu_context t), "filtered"⟩] := by
  unfold filter_and_score
  rw [show remove_duplicates ms [t] = [t] by simp [remove_duplicates, removeDupGo]]
  rw [show [t].filterMap (scoreOne sim m) =
      [⟨t, min m (calculate_relevance sim t + 15/100), true,
        some (bridge_to_gpu_context t), "filtered"⟩] by
    simp [List.filterMap_cons, scoreOne_low hb hr]]
  rfl

theorem fas_singleton_high {sim : String → ℚ} {m ms : ℚ} {t : String}
    (hb : is_blacklisted t = false) (hr : ¬ calculate_relevance sim t < m) :
    filter_and_score sim m ms [t] =
      [⟨t, calculate_relevance sim t, false, none, "filtered"⟩] := by
  unfold filter_and_score
  rw [show remove_duplicates ms [t] = [t] by simp [remove_duplicates, removeDupGo]]
  rw [show [t].filterMap (scoreOne sim m) =
      [⟨t, calculate_relevance sim t, false, none, "filtered"⟩] by
    simp [List.filterMap_cons, scoreOne_high hb hr]]
  rfl

theorem cleanDedupe_start {t cl : String} {rest : List String}
    (h : clean_hashtag t = some cl) :
    cleanDedupe (t :: rest) [] = cl :: cleanDedupe rest [lowerStr cl] :=
  cleanDedupe_cons_some h rfl

theorem load_cache_some (ts : ℚ) (tr : List String) (now ttl : ℚ) :
    load_cache (some (ts, tr)) now ttl =
      if now - ts < ttl then some tr else none := rfl

/-! ### Claim theorems -/

/-- C1 (counterexample): the claimed round trip fails as stated.  With
`minRelevance = 0.15` the input trend `"worldcup"` has raw relevance `0`;
the bridge boost stores `relevance = min(minRelevance, 0 + 0.15) = 0.15`,
which is `≥ minRelevance`, while `needs_bridge = true` and `bridge_text`
is a non-empty string — contradicting the claim's first conjunct. -/
theorem c1_counterexample :
    filter_and_score simZero (15/100) (88/100) ["worldcup"] =
      [⟨"worldcup", 15/100, true,
        some "Global event streaming? Deploy GPUs worldwide in minutes",
        "filtered"⟩] ∧
    ¬ ((15 : ℚ)/100 < 15/100) := by
  constructor
  · rw [fas_singleton_low (by decide) (by rw [calcRel_simZero_worldcup]; norm_num),
      calcRel_simZero_worldcup, zero_add, min_self,
      show bridge_to_gpu_context "worldcup" =
        "Global event streaming? Deploy GPUs worldwide in minutes" from by decide]
  · exact lt_irrefl _

/-- C1 (amended): for every cosine oracle, every configured `minRelevance`
and `maxSimilarity` and every input list, each record returned by
`filter_and_score` satisfies: if its stored relevance is strictly greater
than `minRelevance` then `needs_bridge = false` and `bridge_text = none`,
and if its stored relevance is below `minRelevance` then
`needs_bridge = true` and `bridge_text` is a non-empty (truthy) string.
The boundary case `relevance = minRelevance` can carry a bridge, because
the bridge boost caps the stored relevance at exactly `minRelevance`. -/
theorem c1_amended : ∀ (sim : String → ℚ) (m ms : ℚ) (trends : List String)
    (rec : ScoredTrend), rec ∈ filter_and_score sim m ms trends →
    (m < rec.relevance → rec.needs_bridge = false ∧ rec.bridge_text = none) ∧
    (rec.relevance < m → rec.needs_bridge = true ∧ truthyOpt rec.bridge_text = true) := by
  intro sim m ms trends rec h
  obtain ⟨t, _, hs⟩ := mem_fas h
  obtain ⟨_, _, h1, h2⟩ := scoreOne_spec hs
  exact ⟨h1, h2⟩

/-- C1 (witness): the amended round trip applied to the concrete output
record of `filter_and_score` on `["worldcup"]` at the default
`minRelevance = 0.55`. -/
theorem c1_witness :
    (ScoredTrend.mk "worldcup" (3/20) true
        (some "Global event streaming? Deploy GPUs worldwide in minutes")
        "filtered").needs_bridge = true ∧
    truthyOpt (ScoredTrend.mk "worldcup" (3/20) true
        (some "Global event streaming? Deploy GPUs worldwide in minutes")
        "filtered").bridge_text = true :=
  (c1_amended simZero (55/100) (88/100) ["worldcup"]
    ⟨"worldcup", 3/20, true,
      some "Global event streaming? Deploy GPUs worldwide in minutes",
      "filtered"⟩ (by
        rw [fas_singleton_low (by decide) (by rw [calcRel_simZero_worldcup]; norm_num),
          calcRel_simZero_worldcup, zero_add,
          show min ((55 : ℚ)/100) (15/100) = 3/20 from
            (min_eq_right (by norm_num)).trans (by norm_num),
          show bridge_to_gpu_context "worldcup" =
            "Global event streaming? Deploy GPUs worldwide in minutes" from by decide]
        exact List.mem_singleton.mpr rfl)).2 (by norm_num)

/-- C2 (counterexample): for the tag `"worldcup"` the synthesized bridge is
the pre-authored global-event sentence, which does not contain the substring
`"worldcup"` (case-insensitively), nor its cleaned form (the same string);
the claim's containment conjunct is false on the code. -/
theorem c2_counterexample :
    bridge_to_gpu_context "worldcup" =
      "Global event streaming? Deploy GPUs worldwide in minutes" ∧
    isSub "worldcup".toList (lowerStr (bridge_to_gpu_context "worldcup")).toList = false ∧
    isSub (cleanTrend "worldcup").toList
      (lowerStr (bridge_to_gpu_context "worldcup")).toList = false := by
  refine ⟨by decide, by decide, by decide⟩

/-- C2 (amended): for the tag `"worldcup"` with `minRelevance = 0.55` and no
domain-keyword match, the computed relevance is `0`, hence below the
threshold, and the synthesized `bridgeText` is non-empty — but it is the
fixed global-event category sentence and does not contain the substring
`"worldcup"` (case-insensitively). -/
theorem c2_amended : ∀ sim : String → ℚ, simOk sim →
    calculate_relevance sim "worldcup" = 0 ∧
    calculate_relevance sim "worldcup" < 55/100 ∧
    bridge_to_gpu_context "worldcup" ≠ "" ∧
    isSub "worldcup".toList (lowerStr (bridge_to_gpu_context "worldcup")).toList = false := by
  intro sim hsim
  have hz : sim (cleanTrend "worldcup") = 0 := hsim.2 _ (by decide)
  have hval : calculate_relevance sim "worldcup" = 0 :=
    (calcRel_miss (by decide) (by decide)).trans hz
  exact ⟨hval, by rw [hval]; norm_num, bridge_nonempty _, by decide⟩

/-- C2 (witness): the amended statement at the concrete oracle `simZero`. -/
theorem c2_witness :
    calculate_relevance simZero "worldcup" = 0 ∧
    calculate_relevance simZero "worldcup" < 55/100 ∧
    bridge_to_gpu_context "worldcup" ≠ "" ∧
    isSub "worldcup".toList (lowerStr (bridge_to_gpu_context "worldcup")).toList = false :=
  c2_amended simZero simZero_ok

theorem removeDupGo_nil (ms : ℚ) (acc : List String) : removeDupGo ms [] acc = acc := rfl

theorem removeDupGo_cons (ms : ℚ) (t : String) (rest acc : List String) :
    removeDupGo ms (t :: rest) acc =
      if acc.any (fun u => decide (ms < similarity t u)) then removeDupGo ms rest acc
      else removeDupGo ms rest (acc ++ [t]) := rfl

theorem googleStep_none (fc : ℕ) (now : ℚ) (ok : Bool) :
    googleTrendsStep ⟨fc, none⟩ now ok = pytrendsAttempt ⟨fc, none⟩ now ok := rfl

theorem googleStep_some (fc : ℕ) (t now : ℚ) (ok : Bool) :
    googleTrendsStep ⟨fc, some t⟩ now ok =
      if now < t then (⟨fc, some t⟩, false) else pytrendsAttempt ⟨0, none⟩ now ok := rfl

theorem pytrendsAttempt_ok (s : PBreaker) (now : ℚ) : pytrendsAttempt s now true = (s, true) := rfl

theorem pytrendsAttempt_fail (s : PBreaker) (now : ℚ) :
    pytrendsAttempt s now false =
      (⟨s.failCount + 1,
        if 3 ≤ s.failCount + 1 then some (now + 60) else s.degradedUntil⟩, true) := rfl

theorem runBreaker_nil (s : PBreaker) : runBreaker s [] = (s, []) := rfl

theorem runBreaker_cons (s : PBreaker) (now : ℚ) (ok : Bool) (rest : List (ℚ × Bool)) :
    runBreaker s ((now, ok) :: rest) =
      ((runBreaker (googleTrendsStep s now ok).1 rest).1,
        (googleTrendsStep s now ok).2 :: (runBreaker (googleTrendsStep s now ok).1 rest).2) := rfl

/-- C3 (counterexample): admission uses a strict `>` test, so two admitted
candidates may have similarity exactly equal to `maxSimilarity`: with
`maxSimilarity = 0.5`, both `"ab"` and `"ac"` are admitted although their
pairwise similarity is `0.5`, which is not strictly below the threshold. -/
theorem c3_counterexample :
    remove_duplicates (1/2) ["ab", "ac"] = ["ab", "ac"] ∧
    similarity "ab" "ac" = 1/2 ∧
    ¬ (similarity "ab" "ac" < 1/2) ∧
    ¬ (similarity "ac" "ab" < 1/2) := by
  have hs : similarity "ac" "ab" = 1/2 := by
    rw [similarity_eval 1 2 (by decide) (by decide)]
    norm_num
  have hs2 : similarity "ab" "ac" = 1/2 := by
    rw [similarity_eval 1 2 (by decide) (by decide)]
    norm_num
  refine ⟨?_, hs2, by rw [hs2]; exact lt_irrefl _, by rw [hs]; exact lt_irrefl _⟩
  unfold remove_duplicates
  rw [removeDupGo_cons, if_neg (by simp), removeDupGo_cons]
  rw [if_neg (by
    simp only [List.any_cons, List.any_nil, Bool.or_false, List.nil_append]
    rw [decide_eq_false (by rw [hs]; exact lt_irrefl _)]
    simp)]
  rfl

/-- C3 (amended): for every input list and `maxSimilarity`, any two distinct
candidates admitted by `remove_duplicates` have similarity at most
`maxSimilarity` (not strictly below: equality is possible); and with
`maxSimilarity = 0.60` the input `["#MachineLearning", "#MachineLearning2024"]`
admits only the first candidate (the pair's similarity is `0.8 > 0.6`). -/
theorem c3_amended :
    (∀ (ms : ℚ) (trends : List String),
      List.Pairwise (fun a b => similarity a b ≤ ms ∧ similarity b a ≤ ms)
        (remove_duplicates ms trends)) ∧
    remove_duplicates (60/100) ["#MachineLearning", "#MachineLearning2024"] =
      ["#MachineLearning"] := by
  constructor
  · intro ms trends
    exact removeDupGo_pairwise ms trends [] List.Pairwise.nil
  · have hs : similarity "#MachineLearning2024" "#MachineLearning" = 1 - (4 : ℚ)/20 :=
      similarity_eval 4 20 (by decide) (by decide)
    unfold remove_duplicates
    rw [removeDupGo_cons, if_neg (by simp), removeDupGo_cons]
    rw [if_pos (by
      simp only [List.any_cons, List.any_nil, Bool.or_false, List.nil_append]
      rw [decide_eq_true (by rw [hs]; norm_num)])]
    rfl

/-- C4 (counterexample): the claimed probe semantics fails on the code.
After three failed calls at minutes 0, 1, 2 the breaker opens until
minute 62.  The call at minute 63 is the probe and fails; the claim says the
breaker then returns to open with a restarted cooldown, so the call at
minute 64 would short-circuit — but the code resets both fields when the
cooldown elapses, so after the failed probe the failure count is 1, the
breaker stays closed, and the call at minute 64 still invokes the adapter
(all five invocation flags are `true` and no cooldown is armed at the end). -/
theorem c4_counterexample :
    runBreaker ⟨0, none⟩ [(0, false), (1, false), (2, false), (63, false), (64, false)] =
      (⟨2, none⟩, [true, true, true, true, true]) := by
  have s1 : googleTrendsStep ⟨0, none⟩ 0 false = (⟨1, none⟩, true) := by
    rw [googleStep_none, pytrendsAttempt_fail]
    norm_num
  have s2 : googleTrendsStep ⟨1, none⟩ 1 false = (⟨2, none⟩, true) := by
    rw [googleStep_none, pytrendsAttempt_fail]
    norm_num
  have s3 : googleTrendsStep ⟨2, none⟩ 2 false = (⟨3, some 62⟩, true) := by
    rw [googleStep_none, pytrendsAttempt_fail]
    norm_num
  have s4 : googleTrendsStep ⟨3, some 62⟩ 63 false = (⟨1, none⟩, true) := by
    rw [googleStep_some, if_neg (by norm_num), pytrendsAttempt_fail]
    norm_num
  have s5 : googleTrendsStep ⟨1, none⟩ 64 false = (⟨2, none⟩, true) := by
    rw [googleStep_none, pytrendsAttempt_fail]
    norm_num
  rw [runBreaker_cons, s1]
  dsimp only
  rw [runBreaker_cons, s2]
  dsimp only
  rw [runBreaker_cons, s3]
  dsimp only
  rw [runBreaker_cons, s4]
  dsimp only
  rw [runBreaker_cons, s5]
  dsimp only
  rw [runBreaker_nil]

/-- C4 (amended): the breaker state machine the code implements: while open
and within the cooldown every call short-circuits without invoking the
adapter; once the cooldown elapses the next call is attempted with both
fields reset, leaving the breaker closed with count 0 on success and closed
with count 1 on failure (it re-opens only after the count again reaches 3,
rather than immediately restarting the cooldown); in the closed state a call
with at least one successful region leaves the state unchanged (the count is
not reset on success), a failed call increments the count, and the 60-minute
cooldown is armed exactly when the count reaches 3 — in particular three
consecutive failed calls from the initial state open the breaker. -/
theorem c4_amended :
    (∀ (fc : ℕ) (t now : ℚ) (ok : Bool), now < t →
      googleTrendsStep ⟨fc, some t⟩ now ok = (⟨fc, some t⟩, false)) ∧
    (∀ (fc : ℕ) (t now : ℚ), t ≤ now →
      googleTrendsStep ⟨fc, some t⟩ now true = (⟨0, none⟩, true)) ∧
    (∀ (fc : ℕ) (t now : ℚ), t ≤ now →
      googleTrendsStep ⟨fc, some t⟩ now false = (⟨1, none⟩, true)) ∧
    (∀ (fc : ℕ) (now : ℚ), googleTrendsStep ⟨fc, none⟩ now true = (⟨fc, none⟩, true)) ∧
    (∀ (fc : ℕ) (now : ℚ), fc + 1 < 3 →
      googleTrendsStep ⟨fc, none⟩ now false = (⟨fc + 1, none⟩, true)) ∧
    (∀ (fc : ℕ) (now : ℚ), 3 ≤ fc + 1 →
      googleTrendsStep ⟨fc, none⟩ now false = (⟨fc + 1, some (now + 60)⟩, true)) ∧
    (∀ t0 t1 t2 : ℚ, runBreaker ⟨0, none⟩ [(t0, false), (t1, false), (t2, false)] =
      (⟨3, some (t2 + 60)⟩, [true, true, true])) := by
  have hgen : ∀ (fc : ℕ) (now : ℚ), fc + 1 < 3 →
      googleTrendsStep ⟨fc, none⟩ now false = (⟨fc + 1, none⟩, true) := by
    intro fc now h
    rw [googleStep_none, pytrendsAttempt_fail]
    dsimp only
    rw [if_neg (by omega)]
  have hopen : ∀ (fc : ℕ) (now : ℚ), 3 ≤ fc + 1 →
      googleTrendsStep ⟨fc, none⟩ now false = (⟨fc + 1, some (now + 60)⟩, true) := by
    intro fc now h
    rw [googleStep_none, pytrendsAttempt_fail]
    dsimp only
    rw [if_pos h]
  refine ⟨?_, ?_, ?_, ?_, hgen, hopen, ?_⟩
  · intro fc t now ok h
    rw [googleStep_some, if_pos h]
  · intro fc t now h
    rw [googleStep_some, if_neg (not_lt.mpr h), pytrendsAttempt_ok]
  · intro fc t now h
    rw [googleStep_some, if_neg (not_lt.mpr h), pytrendsAttempt_fail]
    dsimp only
    rw [if_neg (by omega)]
  · intro fc now
    rw [googleStep_none, pytrendsAttempt_ok]
  · intro t0 t1 t2
    rw [runBreaker_cons, hgen 0 t0 (by omega)]
    dsimp only
    rw [runBreaker_cons, hgen 1 t1 (by omega)]
    dsimp only
    rw [runBreaker_cons, hopen 2 t2 (by omega)]
    dsimp only
    rw [runBreaker_nil]

/-- C4 (witness): the amended transitions at concrete inputs: an open
breaker at minute 3 with cooldown ending at minute 5 short-circuits without
invoking the adapter, and a closed breaker with failure count 2 failing at
minute 7 opens until minute 67. -/
theorem c4_witness :
    googleTrendsStep ⟨2, some 5⟩ 3 false = (⟨2, some 5⟩, false) ∧
    googleTrendsStep ⟨2, none⟩ 7 false = (⟨3, some (7 + 60)⟩, true) :=
  ⟨c4_amended.1 2 5 3 false (by norm_num),
   c4_amended.2.2.2.2.2.1 2 7 (by norm_num)⟩

/-- C5 (counterexample): ties are NOT broken by recency.  Two trends with the
same hashtag, source and score, observed at hours 0 and 1 and scored at hour
20, both get time factor `0.5` and the identical final score `0.6`; the sort
is stable, so the older record (timestamp 0) stays first, where the claim
requires the more recent one first. -/
theorem c5_counterexample :
    (score_trends_with_relevance relZero 20
        [⟨"#X", "twitter", 1, 0⟩, ⟨"#X", "twitter", 1, 1⟩]).map
      (fun r => (r.timestamp, r.final_score)) = [(0, 3/5), (1, 3/5)] := by
  norm_num [score_trends_with_relevance, List.map_cons, List.map_nil,
    List.insertionSort, List.orderedInsert, sourceBoost, relZero, max_def]

/-- C5 (amended): the ranked output of one refresh is sorted by the final
score in descending order (both in `_score_trends_with_relevance` and, by
relevance, in `filter_and_score`); candidates with equal scores keep their
input order (Python sorts are stable) — they are NOT reordered by recency. -/
theorem c5_amended :
    (∀ (rel : String → ℚ) (now : ℚ) (trends : List TrendRec),
      List.Sorted (fun a b => b.final_score ≤ a.final_score)
        (score_trends_with_relevance rel now trends)) ∧
    (∀ (sim : String → ℚ) (m ms : ℚ) (trends : List String),
      List.Sorted (fun a b : ScoredTrend => b.relevance ≤ a.relevance)
        (filter_and_score sim m ms trends)) := by
  constructor
  · intro rel now trends
    unfold score_trends_with_relevance
    haveI : IsTotal ScoredRec (fun a b => b.final_score ≤ a.final_score) :=
      ⟨fun a b => le_total _ _⟩
    haveI : IsTrans ScoredRec (fun a b => b.final_score ≤ a.final_score) :=
      ⟨fun _ _ _ h1 h2 => le_trans h2 h1⟩
    exact List.sorted_insertionSort _ _
  · intro sim m ms trends
    unfold filter_and_score
    haveI : IsTotal ScoredTrend (fun a b => b.relevance ≤ a.relevance) :=
      ⟨fun a b => le_total _ _⟩
    haveI : IsTrans ScoredTrend (fun a b => b.relevance ≤ a.relevance) :=
      ⟨fun _ _ _ h1 h2 => le_trans h2 h1⟩
    exact List.sorted_insertionSort _ _

/-- C6: whenever the cleaned tag contains a domain keyword as a substring,
`calculate_relevance` returns exactly `0.85`, for every cosine oracle —
i.e. without consulting the cosine-similarity stage at all; in particular
`"gpucompute"` scores `0.85` and its `filter_and_score` record under the
default `minRelevance = 0.55` has `needs_bridge = false` and no bridge. -/
theorem c6 :
    (∀ (sim : String → ℚ) (trend : String),
      (DOMAIN_KEYWORDS.any fun k =>
        isSub (lowerStr k).toList (lowerStr (cleanTrend trend)).toList) = true →
      calculate_relevance sim trend = 85/100) ∧
    (∀ sim : String → ℚ, filter_and_score sim (55/100) (88/100) ["gpucompute"] =
      [⟨"gpucompute", 85/100, false, none, "filtered"⟩]) := by
  constructor
  · intro sim trend h
    exact calcRel_hit h
  · intro sim
    have hval : calculate_relevance sim "gpucompute" = 85/100 := calcRel_hit (by decide)
    rw [fas_singleton_high (by decide) (by rw [hval]; norm_num), hval]

/-- C6 (witness): the keyword short-circuit applied to the concrete tag
`"gpucompute"` at the concrete oracle `simZero`. -/
theorem c6_witness : calculate_relevance simZero "gpucompute" = 85/100 :=
  c6.1 simZero "gpucompute" (by decide)

/-- C7: when every real source fails (the two networked fetchers return `[]`,
all their exceptions being swallowed) and the cache is absent,
`get_worldwide_trends` still returns at least one hashtag and no error: the
calendar-based temporal generator always contributes, and its first tag
(`"#" ++ weekday name`) always survives cleaning, so the returned top-10
list is non-empty for every clock state and every date hash. -/
theorem c7 : ∀ (dh : ℕ → ℕ) (c : Clock),
    get_worldwide_trends dh c none [] [] ≠ [] := by
  intro dh c
  have hwd : ∀ w : Fin 7, clean_hashtag ("#" ++ weekdayName w) =
      some ("#" ++ weekdayName w) := by
    intro w
    fin_cases w <;> decide
  obtain ⟨rest, hrest⟩ : ∃ rest,
      generate_temporal_trends c = ("#" ++ weekdayName c.weekday) :: rest := ⟨_, rfl⟩
  unfold get_worldwide_trends
  simp only [List.nil_append, hrest]
  rw [cleanDedupe_start (hwd c.weekday)]
  simp

/-- C8: a cache read performed once the entry's time-to-live has elapsed
returns a miss (`ok = false`), for every write time, payload, read time and
TTL; the entry is then treated as absent. -/
theorem c8 : ∀ (ts : ℚ) (tr : List String) (now ttl : ℚ), ttl ≤ now - ts →
    load_cache (some (ts, tr)) now ttl = none := by
  intro ts tr now ttl h
  rw [load_cache_some, if_neg (not_lt.mpr h)]

/-- C8 (witness): an entry written at time 0 with `ttl = 1` millisecond and
read at time 5 milliseconds misses. -/
theorem c8_witness : load_cache (some (0, ["#A"])) 5 1 = none :=
  c8 0 ["#A"] 5 1 (by norm_num)

/-- C9: `calculate_relevance` is deterministic: it reads but never mutates
the filter state (keyword list, fitted vectorizer), so two calls on the same
tag within one process lifetime return the identical value. -/
theorem c9 : ∀ (sim : String → ℚ) (tag : String),
    (scoreTwice sim tag).1 = (scoreTwice sim tag).2 := by
  intro sim tag
  rfl

/-- C10: content filtering invariant: no record returned by
`filter_and_score` has a hashtag matching any blacklist pattern (NSFW,
political or violence terms) — blacklisted trends are silently dropped
before scoring. -/
theorem c10 : ∀ (sim : String → ℚ) (m ms : ℚ) (trends : List String)
    (rec : ScoredTrend), rec ∈ filter_and_score sim m ms trends →
    is_blacklisted rec.hashtag = false := by
  intro sim m ms trends rec h
  obtain ⟨t, _, hs⟩ := mem_fas h
  obtain ⟨hh, hb, _, _⟩ := scoreOne_spec hs
  rw [hh]
  exact hb

/-- C10 (witness): the invariant applied to the concrete output record of
`filter_and_score` on `["gpucompute"]`. -/
theorem c10_witness :
    is_blacklisted (ScoredTrend.mk "gpucompute" (85/100) false none "filtered").hashtag
      = false :=
  c10 simZero (55/100) (88/100) ["gpucompute"] _ (by
    rw [fas_singleton_high (by decide)
        (by rw [calcRel_hit (by decide)]; norm_num),
      calcRel_hit (by decide)]
    exact List.mem_singleton.mpr rfl)
